import Mathlib

/-!
Shallow embedding of the core of the logic-gate simulator's front end
(src/scanner.py and src/parse.py): the Scanner that turns a character
stream into symbols, and the recursive-descent Parser that builds the
netlist by issuing creation/connection requests while accumulating
diagnostics.

Conventions of the embedding:
* Characters are Lean `Char`s; the Python file object is a `List Char` of
  the characters not yet read, plus the one-character lookahead
  `current_character` (`Option Char`, `none` models the empty string that
  Python's `read(1)` returns at end of file).
* Python exceptions that the code never catches (IndexError, ValueError,
  KeyError, TypeError) and genuine non-termination of a loop are modelled
  by the `Outcome` monad below: `exn` for an uncaught exception, `diverge`
  for an infinite loop.
* Diagnostics are recorded as their error codes only (the line/column and
  message strings carried by the Python Error objects do not affect
  control flow).  `errors.py` is not under src/, so the code list is
  modelled from the spec's closed taxonomy (section 7).
* The external collaborators (names.py symbol table, devices.py registry,
  network.py connection fabric) are not under src/; they are modelled
  from the spec, section 6, as noted on each definition.
* Python character predicates (`isalpha`, `isdigit`, `isspace`,
  `isalnum`) are embedded for the ASCII range, which covers every
  character class the grammar and the claims use.
-/

/-- Result of running a piece of Python code: a value, an uncaught
exception (named by the Python exception class), or non-termination. -/
inductive Outcome (α : Type) where
  | ok (a : α)
  | exn (e : String)
  | diverge
  deriving DecidableEq, Repr

namespace Outcome

def bind {α β : Type} : Outcome α → (α → Outcome β) → Outcome β
  | ok a, f => f a
  | exn e, _ => exn e
  | diverge, _ => diverge

instance : Monad Outcome where
  pure := Outcome.ok
  bind := Outcome.bind

end Outcome

/-- The closed diagnostic taxonomy.  `errors.py` is missing from src/;
modelled from the spec: section 7 lists the parser-level codes, and
scanner.py's own ErrorCodes class declares INVALID_CHARACTER,
INVALID_NAME and INVALID_NUMBER. -/
inductive ErrCode where
  | INVALID_HEADER
  | INVALID_NAME
  | NAME_DEFINED
  | INVALID_LOGIC_GATE
  | INVALID_NUMBER
  | SYNTAX_ERROR
  | OVERFLOW_ERROR
  | INVALID_PIN
  | INVALID_DEVICE
  | INVALID_CHARACTER
  deriving DecidableEq, Repr

/-- The symbol (token) kinds of scanner.py's SymbolList class. -/
inductive SymType where
  | HEADING
  | LOGIC
  | NUMBER
  | NAME
  | EQUAL
  | DOT
  | COMMA
  | SEMICOLON
  | OPEN_BRACKET
  | CLOSE_BRACKET
  | OPEN_SQUARE_BRACKET
  | CLOSE_SQUARE_BRACKET
  | EOF
  deriving DecidableEq, Repr

/-- scanner.py's Symbol class (named Tok here; Symbol clashes with a Mathlib name): `type` is `None` until classified (and stays
`None` for an invalid character), `id` is the interned identity of NAME
and LOGIC tokens, `name` the token text.  For NUMBER tokens Python stores
the parsed int in `name`; here `name` holds its decimal rendering and
`nval` the value (so `int(symbol.name)` is `nval` and string comparisons
against `name` fail exactly as int-vs-str comparisons do in Python). -/
structure Tok where
  type : Option SymType := none
  id : Option Nat := none
  name : String := ""
  nval : Option Nat := none
  deriving DecidableEq, Repr

/-- ASCII embedding of Python's str.isspace for single characters. -/
def pySpace (c : Char) : Bool :=
  c = ' ' ∨ c = '\t' ∨ c = '\n' ∨ c = '\r' ∨ c = '\x0b' ∨ c = '\x0c'

/-- ASCII embedding of Python's str.isalpha for single characters. -/
def pyAlpha (c : Char) : Bool :=
  ('a' ≤ c ∧ c ≤ 'z') ∨ ('A' ≤ c ∧ c ≤ 'Z')

/-- ASCII embedding of Python's str.isdigit for single characters. -/
def pyDigit (c : Char) : Bool :=
  '0' ≤ c ∧ c ≤ '9'

/-- ASCII embedding of Python's str.isalnum for single characters. -/
def pyAlnum (c : Char) : Bool :=
  pyAlpha c ∨ pyDigit c

/-- Python's int() on the text of a token: defined exactly on non-empty
all-digit strings (token texts never carry signs or spaces); `none`
models the ValueError raised on anything else. -/
def pyInt (s : String) : Option Nat :=
  if s.data ≠ [] ∧ s.data.all pyDigit then
    some (s.data.foldl (fun acc c => 10 * acc + (c.toNat - '0'.toNat)) 0)
  else none

/-- The state of scanner.py's Scanner object: the unread characters of
the file, the one-character lookahead `current_character` (`none` once
read(1) has returned the empty string), the line/column counters, the
shared Names table (names.py is missing from src/; modelled from the
spec: `lookup` interns unseen names preserving order, `query` does not
intern, identities are stable numeric handles — here the index in the
table), and the scanner's own error list. -/
structure ScannerState where
  input : List Char
  current : Option Char
  line : Nat
  pos : Nat
  names : List String
  errors : List ErrCode
  deriving DecidableEq, Repr

/-- Scanner.__init__: current_character is a single space, counters 0. -/
def initScanner (text : String) : ScannerState :=
  { input := text.data, current := some ' ', line := 0, pos := 0,
    names := [], errors := [] }

/-- Scanner.advance: read one character (or hit end of file) and update
the line/column counters exactly as scanner.py lines 276-287 do —
note that at end of file `current_position` keeps incrementing. -/
def advance (s : ScannerState) : ScannerState :=
  match s.input with
  | [] => { s with current := none, pos := s.pos + 1 }
  | c :: rest =>
      if c = '\n' then
        { s with current := some c, input := rest, line := s.line + 1, pos := 0 }
      else
        { s with current := some c, input := rest, pos := s.pos + 1 }

/-- Termination measure for scanner loops: unread characters plus the
lookahead. -/
def scanMeasure (s : ScannerState) : Nat :=
  s.input.length + (if s.current.isSome then 1 else 0)

theorem advance_measure_lt (s : ScannerState) (c : Char)
    (h : s.current = some c) : scanMeasure (advance s) < scanMeasure s := by
  cases hin : s.input with
  | nil => simp [advance, scanMeasure, hin, h]
  | cons a rest =>
      by_cases ha : a = '\n' <;>
        simp [advance, scanMeasure, hin, h, ha]

/-- Scanner.skip_spaces: advance while the current character is
whitespace.  The loop is embedded with structural recursion on a fuel
argument so that it evaluates inside the kernel; every iteration
consumes one unit of `scanMeasure`, so the wrapper's fuel is never
exhausted and the fuel-0 branch is unreachable. -/
def skipSpacesF : Nat → ScannerState → ScannerState
  | 0, s => s
  | fuel + 1, s =>
      match s.current with
      | some c => if pySpace c then skipSpacesF fuel (advance s) else s
      | none => s

def skipSpaces (s : ScannerState) : ScannerState :=
  skipSpacesF (scanMeasure s + 1) s

/-- The body of the single-line comment skip in Scanner.get_symbol
(scanner.py lines 164-167): advance until the current character is a
newline.  When the comment is terminated by end of file instead of a
newline, Python's read(1) keeps returning the empty string, which is
never equal to a newline, so the loop never exits: that case is
`diverge`.  Each iteration consumes one input character, so the
wrapper's fuel is never exhausted and the fuel-0 branch is
unreachable. -/
def skipCommentF : Nat → ScannerState → Outcome ScannerState
  | 0, _ => .diverge
  | fuel + 1, s =>
      if s.current = some '\n' then .ok s
      else
        match s.input with
        | [] => .diverge
        | _ :: _ => skipCommentF fuel (advance s)

def skipCommentLoop (s : ScannerState) : Outcome ScannerState :=
  skipCommentF (s.input.length + 1) s

/-- Iterated Scanner.advance, used to state what every number of
iterations of the stuck comment loop looks like. -/
def advanceIter : Nat → ScannerState → ScannerState
  | 0, s => s
  | n + 1, s => advanceIter n (advance s)

/-- Scanner.get_name's collection loop: consume the maximal alphanumeric
run (fuel as in skipSpacesF; the fuel-0 branch is unreachable). -/
def getNameF : Nat → ScannerState → List Char → List Char × ScannerState
  | 0, s, acc => (acc, s)
  | fuel + 1, s, acc =>
      match s.current with
      | some c => if pyAlnum c then getNameF fuel (advance s) (acc ++ [c]) else (acc, s)
      | none => (acc, s)

def getNameLoop (s : ScannerState) (acc : List Char) : List Char × ScannerState :=
  getNameF (scanMeasure s + 1) s acc

/-- Scanner.get_name: skip spaces, then the alphanumeric run. -/
def getName (s : ScannerState) : String × ScannerState :=
  let s := skipSpaces s
  let (cs, s') := getNameLoop s []
  (⟨cs⟩, s')

/-- Scanner.get_number's collection loop: consume the maximal digit run
and accumulate its value (Python does int() on the collected digits);
fuel as in skipSpacesF, the fuel-0 branch is unreachable. -/
def getNumberF : Nat → ScannerState → Nat → Nat × ScannerState
  | 0, s, acc => (acc, s)
  | fuel + 1, s, acc =>
      match s.current with
      | some c =>
          if pyDigit c then getNumberF fuel (advance s) (10 * acc + (c.toNat - '0'.toNat))
          else (acc, s)
      | none => (acc, s)

def getNumberLoop (s : ScannerState) (acc : Nat) : Nat × ScannerState :=
  getNumberF (scanMeasure s + 1) s acc

def headingList : List String := ["devices", "conns", "monit"]

def logicList : List String := ["DTYPE", "NAND", "NOR", "XOR", "AND", "OR", "CLOCK", "SWITCH"]

def strLower (s : String) : String := ⟨s.data.map Char.toLower⟩

/-- Scanner.__init__'s keyword set: headings and logic kinds, lower-cased. -/
def keywords : List String := (headingList ++ logicList).map strLower

/-- Names.lookup on a single name (names.py is missing from src/;
modelled from the spec: interns the name when unseen, preserving input
order, and returns its stable identity). -/
def namesLookup1 (tbl : List String) (nm : String) : Nat × List String :=
  match tbl.indexOf? nm with
  | some i => (i, tbl)
  | none => (tbl.length, tbl ++ [nm])

/-- Names.lookup on a list of names (modelled from the spec: interns
unseen names, preserves input order). -/
def namesLookup (tbl : List String) (nms : List String) : List Nat × List String :=
  match nms with
  | [] => ([], tbl)
  | nm :: rest =>
      let (i, tbl') := namesLookup1 tbl nm
      let (is, tbl'') := namesLookup tbl' rest
      (i :: is, tbl'')

/-- Names.query (modelled from the spec: identity of an already-interned
name, `none` otherwise, no interning). -/
def namesQuery (tbl : List String) (nm : String) : Option Nat :=
  tbl.indexOf? nm

/-- The classification cascade of Scanner.get_symbol (scanner.py lines
171-251), entered once whitespace and at most one comment have been
skipped.  The final `else` branch (invalid character) records the
diagnostic but — exactly as the source does — never calls advance, so
the offending character is still the lookahead afterwards. -/
def classify (s : ScannerState) : Tok × ScannerState :=
  match s.current with
  | none => ({ type := some .EOF, name := "EOF" }, s)
  | some c =>
    if pyAlpha c then
      let (nm, s') := getName s
      if nm ∈ headingList then
        ({ type := some .HEADING, name := nm }, s')
      else if nm ∈ logicList then
        let (i, tbl) := namesLookup1 s'.names nm
        ({ type := some .LOGIC, id := some i, name := nm }, { s' with names := tbl })
      else
        let (i, tbl) := namesLookup1 s'.names nm
        let s'' := { s' with names := tbl }
        if strLower nm ∈ keywords then
          ({ type := some .NAME, id := some i, name := nm },
           { s'' with errors := s''.errors ++ [.INVALID_NAME] })
        else
          ({ type := some .NAME, id := some i, name := nm }, s'')
    else if pyDigit c then
      let (v, s') := getNumberLoop s 0
      ({ type := some .NUMBER, name := toString v, nval := some v }, s')
    else if c = '=' then ({ type := some .EQUAL, name := "=" }, advance s)
    else if c = '.' then ({ type := some .DOT, name := "." }, advance s)
    else if c = ',' then ({ type := some .COMMA, name := "," }, advance s)
    else if c = ';' then ({ type := some .SEMICOLON, name := ";" }, advance s)
    else if c = '(' then ({ type := some .OPEN_BRACKET, name := "(" }, advance s)
    else if c = ')' then ({ type := some .CLOSE_BRACKET, name := ")" }, advance s)
    else if c = '[' then ({ type := some .OPEN_SQUARE_BRACKET, name := "[" }, advance s)
    else if c = ']' then ({ type := some .CLOSE_SQUARE_BRACKET, name := "]" }, advance s)
    else
      ({ type := none, name := "" }, { s with errors := s.errors ++ [.INVALID_CHARACTER] })

/-- Scanner.get_symbol: skip whitespace, skip at most one single-line
`#` comment, skip whitespace again, then classify. -/
def getSymbol (s : ScannerState) : Outcome (Tok × ScannerState) := do
  let s1 := skipSpaces s
  let s2 ←
    if s1.current = some '#' then skipCommentLoop (advance s1)
    else .ok s1
  let s3 := skipSpaces s2
  .ok (classify s3)

/-- Fixed pin identities exposed by the device registry (devices.py is
missing from src/; modelled from the spec: the registry exposes fixed
identities for the DTYPE pins, and each device's ordered declared
input-pin identities, here `key k`). -/
inductive PinId where
  | CLK
  | DATA
  | SET
  | CLEAR
  | Q
  | QBAR
  | key (k : Nat)
  deriving DecidableEq, Repr

/-- Python truthiness of an optional pin identity, for the source's
`if input_id:` guard: `None` is falsy; the fixed registry identities are
assumed to be nonzero ints (devices.py is external), and a raw input key
is falsy exactly when it is the int 0. -/
def pinTruthy : Option PinId → Bool
  | none => false
  | some (.key k) => k ≠ 0
  | some _ => true

/-- The gate kinds passed to Devices.make_gate (devices.py is missing
from src/; modelled from the spec's closed device-kind set). -/
inductive GateKind where
  | AND
  | NAND
  | OR
  | NOR
  | XOR
  deriving DecidableEq, Repr

/-- A device held by the registry (modelled from the spec: getDevice
exposes the device's ordered declared input-pin identities; make_gate
with n inputs declares n pins, here keys 0..n-1). -/
structure Device where
  inputs : List Nat
  deriving DecidableEq, Repr

/-- A device-creation request issued to the registry (modelled from the
spec: makeGate / makeDType / makeClock / makeSwitch). -/
inductive DevReq where
  | gate (id : Nat) (k : GateKind) (n : Nat)
  | dtype (id : Nat)
  | clock (id : Nat) (period : Nat)
  | switch (id : Nat) (out : Nat)
  deriving DecidableEq, Repr

/-- A connection-creation request issued to the connection fabric
(modelled from the spec: makeConnection(sourceIdentity, sourcePinOrNone,
destIdentity, destPinIdentity); its status is NO_ERROR on these
requests, and a non-success status is only printed by the source, never
recorded). -/
structure ConnReq where
  src : Option Nat
  srcPin : Option PinId
  dst : Nat
  dstPin : PinId
  deriving DecidableEq, Repr

/-- The state of parse.py's Parser object: the owned scanner, the one
live lookahead symbol, the parser's diagnostic list, the pending-name
set `stored_device_list`, and the externally-owned registry/fabric
effects (device map, creation requests, connection requests). -/
structure PState where
  scan : ScannerState
  symbol : Tok
  errors : List ErrCode
  stored_device_list : List String
  registry : List (Nat × Device)
  creations : List DevReq
  conns : List ConnReq
  deriving DecidableEq, Repr

/-- Parser.add_error, reduced to its control-flow content: append the
diagnostic's code (line/column/message are rendering data only). -/
def addErr (c : ErrCode) (st : PState) : PState :=
  { st with errors := st.errors ++ [c] }

/-- Parser.advance: fetch the next symbol from the scanner (the print
call in the source has no effect on state). -/
def padvance (st : PState) : Outcome PState := do
  let (sym, sc) ← getSymbol st.scan
  .ok { st with scan := sc, symbol := sym }

/-- Parser.__init__: fetch the initial lookahead symbol; all lists start
empty. -/
def initParser (text : String) : Outcome PState := do
  let (sym, sc) ← getSymbol (initScanner text)
  .ok { scan := sc, symbol := sym, errors := [], stored_device_list := [],
        registry := [], creations := [], conns := [] }

/-- Devices.get_device (modelled from the spec: the device for an
identity, or none). -/
def getDevice (reg : List (Nat × Device)) (i : Nat) : Option Device :=
  (reg.find? (fun p => p.1 = i)).map Prod.snd

/-- Devices.make_gate (modelled from the spec): record the creation
request and register a device with n declared ordered input pins. -/
def makeGate (i : Nat) (k : GateKind) (n : Nat) (st : PState) : PState :=
  { st with creations := st.creations ++ [.gate i k n],
            registry := st.registry ++ [(i, ⟨List.range n⟩)] }

/-- Devices.make_d_type (modelled from the spec). -/
def makeDType (i : Nat) (st : PState) : PState :=
  { st with creations := st.creations ++ [.dtype i],
            registry := st.registry ++ [(i, ⟨[]⟩)] }

/-- Devices.make_clock (modelled from the spec). -/
def makeClock (i : Nat) (p : Nat) (st : PState) : PState :=
  { st with creations := st.creations ++ [.clock i p],
            registry := st.registry ++ [(i, ⟨[]⟩)] }

/-- Devices.make_switch (modelled from the spec). -/
def makeSwitch (i : Nat) (v : Nat) (st : PState) : PState :=
  { st with creations := st.creations ++ [.switch i v],
            registry := st.registry ++ [(i, ⟨[]⟩)] }

/-- The `device_ids = names.lookup(device_list); for id: make_gate(...)`
tail shared by every gate block of Parser.parse_logic_gate. -/
def makeGates (dl : List String) (k : GateKind) (n : Nat) (st : PState) : PState :=
  let (ids, tbl) := namesLookup st.scan.names dl
  let st := { st with scan := { st.scan with names := tbl } }
  ids.foldl (fun st i => makeGate i k n st) st

/-- int(self.symbol.name) on a NUMBER symbol (Python stores the int in
`name`; the embedding carries it in `nval`). -/
def numOf (t : Tok) : Nat := t.nval.getD 0

/-- Parser.validate_device_name (parse.py lines 104-115): a NAME symbol
is fresh iff it is neither in this statement's batch nor in
stored_device_list; a non-NAME symbol yields INVALID_NAME, a stale name
NAME_DEFINED.  Python returns True / False / None; callers only test
truthiness, so the embedding returns a Bool. -/
def validate_device_name (dl : List String) (st : PState) : Bool × PState :=
  if st.symbol.type = some .NAME then
    if st.symbol.name ∉ dl ∧ st.symbol.name ∉ st.stored_device_list then (true, st)
    else (false, addErr .NAME_DEFINED st)
  else (false, addErr .INVALID_NAME st)

/-- The comma-list loop of Parser.parse_device_line (lines 149-162).
Note the source appends continuation names to both the statement batch
and stored_device_list, but the head name of the statement was only
appended to the batch by the caller.  Returns the collected batch and
devices_are_valid.  The loop is embedded with structural recursion on
fuel; re-entering it requires freshly scanned COMMA and NAME symbols, so
every round consumes scanner input and the fuel of the wrapper (the
scanner measure plus slack) is never exhausted; the fuel-0 `diverge`
branch is unreachable. -/
def commaLoopF : Nat → List String → PState → Outcome (List String × Bool × PState)
  | 0, _, _ => .diverge
  | fuel + 1, dl, st =>
      if st.symbol.type = some .COMMA then do
        let st1 ← padvance st
        if st1.symbol.type = some .EQUAL then .ok (dl, true, st1)
        else
          let (vOk, st2) := validate_device_name dl st1
          if vOk then do
            let dl' := dl ++ [st2.symbol.name]
            let st3 := { st2 with stored_device_list := st2.stored_device_list ++ [st2.symbol.name] }
            let st4 ← padvance st3
            commaLoopF fuel dl' st4
          else .ok (dl, false, st2)
      else .ok (dl, true, st)

def commaLoop (dl : List String) (st : PState) : Outcome (List String × Bool × PState) :=
  commaLoopF (scanMeasure st.scan + 2) dl st

/-- One gate block of Parser.parse_logic_gate for the four 1..16-input
kinds.  The AND (lines 184-240), NAND (241-297), OR (298-354) and NOR
(355-411) blocks of the source are textually identical up to the kind
constant, so they are embedded once, parametrized by the kind: bare `;`
creates the gates with the default 2 inputs; `( NUMBER )` `;` records
INVALID_NUMBER when the count is outside 1..16 but still creates the
gates with that count; any other symbol yields one SYNTAX_ERROR and
abandons the statement. -/
def gateBlock16 (k : GateKind) (dl : List String) (st : PState) : Outcome PState :=
  if st.symbol.type = some .SEMICOLON then
    .ok (makeGates dl k 2 st)
  else if st.symbol.type = some .OPEN_BRACKET then do
    let st ← padvance st
    if st.symbol.type = some .NUMBER then do
      let n := numOf st.symbol
      let st := if n < 1 ∨ n > 16 then addErr .INVALID_NUMBER st else st
      let st ← padvance st
      if st.symbol.type = some .CLOSE_BRACKET then do
        let st ← padvance st
        if st.symbol.type = some .SEMICOLON then
          .ok (makeGates dl k n st)
        else .ok (addErr .SYNTAX_ERROR st)
      else .ok (addErr .SYNTAX_ERROR st)
    else .ok (addErr .SYNTAX_ERROR st)
  else .ok (addErr .SYNTAX_ERROR st)

/-- The XOR block of Parser.parse_logic_gate (lines 412-468): same shape
as `gateBlock16` but the range policy is `number_inps != 2`. -/
def xorBlock (dl : List String) (st : PState) : Outcome PState :=
  if st.symbol.type = some .SEMICOLON then
    .ok (makeGates dl .XOR 2 st)
  else if st.symbol.type = some .OPEN_BRACKET then do
    let st ← padvance st
    if st.symbol.type = some .NUMBER then do
      let n := numOf st.symbol
      let st := if n ≠ 2 then addErr .INVALID_NUMBER st else st
      let st ← padvance st
      if st.symbol.type = some .CLOSE_BRACKET then do
        let st ← padvance st
        if st.symbol.type = some .SEMICOLON then
          .ok (makeGates dl .XOR n st)
        else .ok (addErr .SYNTAX_ERROR st)
      else .ok (addErr .SYNTAX_ERROR st)
    else .ok (addErr .SYNTAX_ERROR st)
  else .ok (addErr .SYNTAX_ERROR st)

/-- The DTYPE block of Parser.parse_logic_gate (lines 470-483): no
parameter, `;` or SYNTAX_ERROR. -/
def dtypeBlock (dl : List String) (st : PState) : Outcome PState :=
  if st.symbol.type = some .SEMICOLON then
    let (ids, tbl) := namesLookup st.scan.names dl
    let st := { st with scan := { st.scan with names := tbl } }
    .ok (ids.foldl (fun st i => makeDType i st) st)
  else .ok (addErr .SYNTAX_ERROR st)

/-- The CLOCK block of Parser.parse_logic_gate (lines 485-529): the
parenthesised period is mandatory (no bare-semicolon default), and a
period below 1 records INVALID_NUMBER but still creates the clocks. -/
def clockBlock (dl : List String) (st : PState) : Outcome PState :=
  if st.symbol.type = some .OPEN_BRACKET then do
    let st ← padvance st
    if st.symbol.type = some .NUMBER then do
      let n := numOf st.symbol
      let st := if n < 1 then addErr .INVALID_NUMBER st else st
      let st ← padvance st
      if st.symbol.type = some .CLOSE_BRACKET then do
        let st ← padvance st
        if st.symbol.type = some .SEMICOLON then
          let (ids, tbl) := namesLookup st.scan.names dl
          let st := { st with scan := { st.scan with names := tbl } }
          .ok (ids.foldl (fun st i => makeClock i n st) st)
        else .ok (addErr .SYNTAX_ERROR st)
      else .ok (addErr .SYNTAX_ERROR st)
    else .ok (addErr .SYNTAX_ERROR st)
  else .ok (addErr .SYNTAX_ERROR st)

/-- The SWITCH block of Parser.parse_logic_gate (lines 531-585): bare
`;` defaults the initial output to 0; a parenthesised output outside
0..1 records INVALID_NUMBER but still creates the switches. -/
def switchBlock (dl : List String) (st : PState) : Outcome PState :=
  if st.symbol.type = some .SEMICOLON then
    let (ids, tbl) := namesLookup st.scan.names dl
    let st := { st with scan := { st.scan with names := tbl } }
    .ok (ids.foldl (fun st i => makeSwitch i 0 st) st)
  else if st.symbol.type = some .OPEN_BRACKET then do
    let st ← padvance st
    if st.symbol.type = some .NUMBER then do
      let n := numOf st.symbol
      let st := if n > 1 then addErr .INVALID_NUMBER st else st
      let st ← padvance st
      if st.symbol.type = some .CLOSE_BRACKET then do
        let st ← padvance st
        if st.symbol.type = some .SEMICOLON then
          let (ids, tbl) := namesLookup st.scan.names dl
          let st := { st with scan := { st.scan with names := tbl } }
          .ok (ids.foldl (fun st i => makeSwitch i n st) st)
        else .ok (addErr .SYNTAX_ERROR st)
      else .ok (addErr .SYNTAX_ERROR st)
    else .ok (addErr .SYNTAX_ERROR st)
  else .ok (addErr .SYNTAX_ERROR st)

/-- Parser.parse_logic_gate (lines 183-585): the source tests
`gate == kind` sequentially for the eight kinds; gate is a single
string, so at most one block runs. -/
def parse_logic_gate (gate : String) (dl : List String) (st : PState) : Outcome PState :=
  if gate = "AND" then gateBlock16 .AND dl st
  else if gate = "NAND" then gateBlock16 .NAND dl st
  else if gate = "OR" then gateBlock16 .OR dl st
  else if gate = "NOR" then gateBlock16 .NOR dl st
  else if gate = "XOR" then xorBlock dl st
  else if gate = "DTYPE" then dtypeBlock dl st
  else if gate = "CLOCK" then clockBlock dl st
  else if gate = "SWITCH" then switchBlock dl st
  else .ok st

/-- Parser.parse_device_line (lines 141-182): validate the head name
(against an empty batch — the head is never pushed to
stored_device_list), collect the comma list, then require `=` KIND and
hand over to parse_logic_gate, finally advancing past the statement. -/
def parse_device_line (st : PState) : Outcome PState := do
  let (vOk, st) := validate_device_name [] st
  if vOk then do
    let dl := [st.symbol.name]
    let st ← padvance st
    let (dl, valid, st) ← commaLoop dl st
    if valid then
      if st.symbol.type = some .EQUAL then do
        let st ← padvance st
        if st.symbol.type = some .LOGIC then do
          let gate := st.symbol.name
          let st ← padvance st
          let st ← parse_logic_gate gate dl st
          padvance st
        else .ok (addErr .INVALID_LOGIC_GATE st)
      else .ok (addErr .SYNTAX_ERROR st)
    else .ok st
  else .ok st

/-- The statement loop of Parser.parse_devices (lines 117-139): run
statements until `[`, with a SYNTAX_ERROR stop on HEADING or EOF and an
OVERFLOW_ERROR circuit-breaker after 500 iterations. -/
def parseDevicesLoop : Nat → PState → Nat → Outcome PState
  | 0, _, _ => .diverge
  | fuel + 1, st, i =>
      if st.symbol.type = some .OPEN_SQUARE_BRACKET then .ok st
      else
        let i' := i + 1
        if st.symbol.type = some .HEADING then .ok (addErr .SYNTAX_ERROR st)
        else if st.symbol.type = some .EOF then .ok (addErr .SYNTAX_ERROR st)
        else if i' > 500 then .ok (addErr .OVERFLOW_ERROR st)
        else do
          let st' ← parse_device_line st
          parseDevicesLoop fuel st' i'

/-- Parser.parse_devices: the loop starting from iteration count 0.
Fuel 501 mirrors the source's own circuit-breaker: the loop body runs at
most 501 times because the `i > 500` check stops it, so the fuel-0
`diverge` branch is unreachable. -/
def parse_devices (st : PState) : Outcome PState := parseDevicesLoop 501 st 0

/-- Parser.parse_devices_block (lines 81-102): `[` HEADING(devices) `]`
then the statement list; any header mismatch records one INVALID_HEADER
and skips the section. -/
def parse_devices_block (st : PState) : Outcome PState :=
  if st.symbol.type = some .OPEN_SQUARE_BRACKET then do
    let st ← padvance st
    if st.symbol.type = some .HEADING ∧ st.symbol.name = "devices" then do
      let st ← padvance st
      if st.symbol.type = some .CLOSE_SQUARE_BRACKET then do
        let st ← padvance st
        parse_devices st
      else .ok (addErr .INVALID_HEADER st)
    else .ok (addErr .INVALID_HEADER st)
  else .ok (addErr .INVALID_HEADER st)

/-- The semantics of re.match applied to the raw pattern I-dot-star
followed by the group ([1-9]|1[0-6]) and the end anchor, as in
Parser.check_inputs_name (parse.py line 635).  The pattern matches a
string iff it starts with the letter I and, after it, some (possibly
empty) run of characters is followed by a final group match; the group
matches a single digit 1..9 or the two-character strings 10..16.
Because an ending 11..16 already ends in a digit 1..9, the pattern
matches iff the string is I followed by a non-empty tail whose last
character is 1..9, or whose last character is 0 with a 1 before it.
Note the stray dot-star: I17, I99 or Ix3 all match. -/
def regexPinMatch (s : String) : Bool :=
  match s.data with
  | 'I' :: rest =>
      match rest.getLast? with
      | some last =>
          (('1' ≤ last ∧ last ≤ '9') ∨
            (last = '0' ∧ rest.dropLast.getLast? = some '1'))
      | none => false
  | _ => false

def dtypePins : List String := ["CLK", "DATA", "Q", "QBAR"]

/-- Parser.check_inputs_name (lines 632-644): accept the regex matches
and the four DTYPE pin names, else record INVALID_NAME.  Python passes
self.symbol.name; when that is the int of a NUMBER token, re.match
raises TypeError. -/
def check_inputs_name (t : Tok) (st : PState) : Outcome (Bool × PState) :=
  if t.nval.isSome then .exn "TypeError"
  else if regexPinMatch t.name ∨ t.name ∈ dtypePins then .ok (true, st)
  else .ok (false, addErr .INVALID_NAME st)

/-- Parser.validate_device_name_for_conns (lines 646-653): the symbol's
name must already be interned in the Names table.  Every scanned NAME or
LOGIC token was interned by the scanner itself, so this rejects only
symbols that never went through that path (punctuation, numbers, end of
file, headings). -/
def validate_device_name_for_conns (st : PState) : Bool × PState :=
  match namesQuery st.scan.names st.symbol.name with
  | none => (false, addErr .INVALID_NAME st)
  | some _ => (true, st)

/-- The dtype_mapping dict lookup of parse.py lines 719-723; a key other
than Q or QBAR raises KeyError. -/
def dtypeMapping (p : String) : Option PinId :=
  if p = "Q" then some .Q else if p = "QBAR" then some .QBAR else none

/-- The output-pin disambiguation step of Parser.parse_conns_line
(lines 716-727): when as many output-pin tags were collected as device
names, the first tag is looked up in dtype_mapping and popped from the
pin list; otherwise the output pin is None.  ports_list[0] on an empty
list raises IndexError, a non-Q/QBAR first tag raises KeyError. -/
def selectOutputPin (device_list ports_list : List String) :
    Outcome (Option PinId × List String) :=
  if ports_list.length = device_list.length then
    match ports_list with
    | [] => .exn "IndexError"
    | p :: ps =>
        match dtypeMapping p with
        | some pid => .ok (some pid, ps)
        | none => .exn "KeyError"
  else .ok (none, ports_list)

/-- The fixed-pin dict of parse.py lines 734-738. -/
def fixedInputPin (p : String) : Option PinId :=
  if p = "CLK" then some .CLK
  else if p = "DATA" then some .DATA
  else if p = "SET" then some .SET
  else if p = "CLEAR" then some .CLEAR
  else none

/-- The per-source input-pin resolution of Parser.parse_conns_line
(lines 730-756): fixed names map to fixed identities; otherwise
int(port_name[1:]) - 1 is computed (ValueError on a non-numeric tail,
e.g. for an accepted Q or QBAR source pin), and then — exactly as the
source has it — the INVALID_PIN diagnostic is recorded when the index
is BELOW the number of declared inputs, while an index at or beyond it
reaches input_keys[index] and raises IndexError; an unresolved device
records INVALID_DEVICE. -/
def resolveInputPin (portName : String) (inputDev : Option Device) (st : PState) :
    Outcome (Option PinId × PState) :=
  match fixedInputPin portName with
  | some pid => .ok (some pid, st)
  | none =>
      match pyInt ⟨portName.data.drop 1⟩ with
      | none => .exn "ValueError"
      | some m =>
          let idx : Int := (m : Int) - 1
          match inputDev with
          | some dev =>
              if idx < (dev.inputs.length : Int) then
                .ok (none, addErr .INVALID_PIN st)
              else
                .exn "IndexError"
          | none => .ok (none, addErr .INVALID_DEVICE st)

/-- The `for i, input_dev in enumerate(input_devices)` loop of
Parser.parse_conns_line (lines 729-764): resolve each collected pin
against its device and, when the resolved identity is truthy, issue the
connection request (the fabric's status is only printed).
ports_list[i] and input_device_ids[i] raise IndexError when the lists
are shorter than input_devices. -/
def connLoop (outId : Option Nat) (outPin : Option PinId) (inIds : List Nat)
    (inDevs : List (Option Device)) (ports : List String) (i : Nat)
    (st : PState) : Outcome PState :=
  match inDevs with
  | [] => .ok st
  | dev :: rest => do
      match ports.get? i with
      | none => .exn "IndexError"
      | some portName => do
          let (inpId, st) ← resolveInputPin portName dev st
          let st ←
            if pinTruthy inpId then
              match inIds.get? i, inpId with
              | some did, some pid =>
                  .ok { st with conns := st.conns ++ [⟨outId, outPin, did, pid⟩] }
              | _, _ => .exn "IndexError"
            else .ok st
          connLoop outId outPin inIds rest ports (i + 1) st

/-- One iteration of the source-collection loop of
Parser.parse_conns_line (lines 680-705), returning the extended lists,
the updated state, and whether the body hit the `break` after a
semicolon. -/
def connsScanStep (dl ports : List String) (st : PState) :
    Outcome (List String × List String × PState × Bool) := do
  let (vOk, st1) := validate_device_name_for_conns st
  if vOk then do
    let dl' := dl ++ [st1.symbol.name]
    let st2 ← padvance st1
    if st2.symbol.type = some .DOT then do
      let st3 ← padvance st2
      let (pinOk, st4) ← check_inputs_name st3.symbol st3
      if pinOk then do
        let ports' := ports ++ [st4.symbol.name]
        let st5 ← padvance st4
        if st5.symbol.type = some .SEMICOLON then do
          let st6 ← padvance st5
          .ok (dl', ports', st6, true)
        else if st5.symbol.type = some .COMMA then do
          let st6 ← padvance st5
          .ok (dl', ports', st6, false)
        else .ok (dl', ports', st5, false)
      else .ok (dl', ports, st4, false)
    else .ok (dl', ports, st2, false)
  else .ok (dl, ports, st1, false)

/-- The source-collection loop of Parser.parse_conns_line (lines
680-705): iterate connsScanStep until the lookahead is a semicolon or
EOF, or the body breaks.  An iteration that consumes no scanner input
and does not reach an exit condition leaves every loop-relevant piece
of state unchanged, so Python repeats it forever — for example a failed
name validation advances nothing.  The loop is embedded with structural
recursion on fuel (the scanner measure plus slack): a terminating run
consumes one measure unit per fuel unit and never exhausts it, and a
stuck run burns the fuel down to the `diverge` branch, which is exactly
the Python non-termination. -/
def connsScanF : Nat → List String → List String → PState →
    Outcome (List String × List String × PState)
  | 0, _, _, _ => .diverge
  | fuel + 1, dl, ports, st =>
      if st.symbol.type = some .SEMICOLON ∨ st.symbol.type = some .EOF then
        .ok (dl, ports, st)
      else do
        let (dl', ports', st', brk) ← connsScanStep dl ports st
        if brk then .ok (dl', ports', st')
        else connsScanF fuel dl' ports' st'

def connsScanLoop (dl ports : List String) (st : PState) :
    Outcome (List String × List String × PState) :=
  connsScanF (scanMeasure st.scan + 2) dl ports st

/-- Parser.parse_conns_line (lines 655-769): validate the sink name (an
unvalidated sink records INVALID_NAME and then INVALID_DEVICE), read an
optional `.Q`/`.QBAR` output tag (any other tag records INVALID_PIN and
leaves the symbol in place), then on `=` collect the sources, pick the
output pin by the length comparison, and resolve and connect each
source. -/
def parse_conns_line (st : PState) : Outcome PState := do
  let (vOk, st) := validate_device_name_for_conns st
  if vOk then do
    let dl := [st.symbol.name]
    let st ← padvance st
    let (ports, st) ←
      if st.symbol.type = some .DOT then do
        let st ← padvance st
        if st.symbol.name = "Q" ∨ st.symbol.name = "QBAR" then do
          let p := st.symbol.name
          let st ← padvance st
          pure ([p], st)
        else pure (([] : List String), addErr .INVALID_PIN st)
      else pure (([] : List String), st)
    if st.symbol.type = some .EQUAL then do
      let st ← padvance st
      let (dl, ports, st) ← connsScanLoop dl ports st
      match dl with
      | [] => .exn "IndexError"
      | d0 :: drest => do
          let outId := namesQuery st.scan.names d0
          let _outDev := outId.bind (fun i => getDevice st.registry i)
          let (inIds, tbl) := namesLookup st.scan.names drest
          let st := { st with scan := { st.scan with names := tbl } }
          let inDevs := inIds.map (fun i => getDevice st.registry i)
          let (outPin, ports) ← selectOutputPin (d0 :: drest) ports
          connLoop outId outPin inIds inDevs ports 0 st
    else .ok st
  else .ok (addErr .INVALID_DEVICE st)

/-- The statement loop of Parser.parse_conns (lines 610-630): same
shape as the devices loop, same 500-iteration circuit-breaker. -/
def parseConnsLoop : Nat → PState → Nat → Outcome PState
  | 0, _, _ => .diverge
  | fuel + 1, st, i =>
      if st.symbol.type = some .OPEN_SQUARE_BRACKET then .ok st
      else
        let i' := i + 1
        if st.symbol.type = some .HEADING then .ok (addErr .SYNTAX_ERROR st)
        else if st.symbol.type = some .EOF then .ok (addErr .SYNTAX_ERROR st)
        else if i' > 500 then .ok (addErr .OVERFLOW_ERROR st)
        else do
          let st' ← parse_conns_line st
          parseConnsLoop fuel st' i'

/-- Parser.parse_conns: the loop starting from iteration count 0; fuel
501 mirrors the source's own `i > 500` circuit-breaker, so the fuel-0
`diverge` branch is unreachable. -/
def parse_conns (st : PState) : Outcome PState := parseConnsLoop 501 st 0

/-- Parser.parse_conns_block (lines 587-608): `[` HEADING(conns) `]`
then the statement list. -/
def parse_conns_block (st : PState) : Outcome PState :=
  if st.symbol.type = some .OPEN_SQUARE_BRACKET then do
    let st ← padvance st
    if st.symbol.type = some .HEADING ∧ st.symbol.name = "conns" then do
      let st ← padvance st
      if st.symbol.type = some .CLOSE_SQUARE_BRACKET then do
        let st ← padvance st
        parse_conns st
      else .ok (addErr .INVALID_HEADER st)
    else .ok (addErr .INVALID_HEADER st)
  else .ok (addErr .INVALID_HEADER st)

/-- Parser.parse_network (lines 65-75): parse the devices block, then
the conns block, and return True — unconditionally, as the source's own
comment admits ("When complete, should return False when there are
errors"). -/
def parse_network (text : String) : Outcome (Bool × PState) := do
  let st ← initParser text
  let st ← parse_devices_block st
  let st ← parse_conns_block st
  .ok (true, st)

/-- The full diagnostic sequence of one pass: the scanner's and the
parser's error lists (kept separate by the source, combined for the
accept/reject question). -/
def allErrors (st : PState) : List ErrCode := st.scan.errors ++ st.errors

/-- The accept/reject answer of one pass over an input text. -/
def passResult (text : String) : Outcome Bool :=
  (parse_network text).bind (fun r => .ok r.1)

/-- The diagnostic sequence accumulated by one pass over an input text. -/
def passErrors (text : String) : Outcome (List ErrCode) :=
  (parse_network text).bind (fun r => .ok (allErrors r.2))

/-- The device-creation requests issued during one pass. -/
def passCreations (text : String) : Outcome (List DevReq) :=
  (parse_network text).bind (fun r => .ok r.2.creations)

/-- The connection-creation requests issued during one pass. -/
def passConns (text : String) : Outcome (List ConnReq) :=
  (parse_network text).bind (fun r => .ok r.2.conns)

/-- Parsing a single device statement the way Parser.__init__ plus one
parse_device_line call does: the statement's diagnostics (parser's,
then scanner's) and creation requests. -/
def runDeviceLine (text : String) : Outcome (List ErrCode × List ErrCode × List DevReq) :=
  (initParser text >>= parse_device_line).bind
    (fun st => .ok (st.errors, st.scan.errors, st.creations))

/-- C1.  The claim says parse_network accepts iff the diagnostic
sequence is empty.  The code returns True unconditionally (its own
comment admits "should return False when there are errors"): on the
empty input the pass records two INVALID_HEADER diagnostics — one per
missing section header — and still returns the accepting result. -/
theorem c1_parse_network_returns_true_despite_diagnostics :
    passResult "" = .ok true ∧
      passErrors "" = .ok [.INVALID_HEADER, .INVALID_HEADER] := by
  exact ⟨rfl, rfl⟩

/-- C2.  The claim says re-declaring a device name always records
NAME_DEFINED.  But parse_device_line appends only comma-continuation
names to stored_device_list, never the head name of a statement, so a
second statement re-declaring an earlier head name passes validation:
the pass below records no NAME_DEFINED at all (its one SYNTAX_ERROR is
the end-of-conns artifact) and issues two creation requests for the
same identity. -/
theorem c2_duplicate_head_name_not_rejected :
    passErrors "[devices]\na = AND(2);\na = OR(2);\n[conns]\n" = .ok [.SYNTAX_ERROR] ∧
      passCreations "[devices]\na = AND(2);\na = OR(2);\n[conns]\n" =
        .ok [.gate 0 .AND 2, .gate 0 .OR 2] := by
  exact ⟨by decide, by decide⟩

/-- C8.  `g1 = AND(17);` records exactly one INVALID_NUMBER (and no
other parser or scanner diagnostic), and so does `g1 = XOR(3);`; the
creation requests carry the out-of-range counts. -/
theorem c8_and17_xor3_exactly_one_invalid_number :
    runDeviceLine "g1 = AND(17);" = .ok ([.INVALID_NUMBER], [], [.gate 0 .AND 17]) ∧
      runDeviceLine "g1 = XOR(3);" = .ok ([.INVALID_NUMBER], [], [.gate 0 .XOR 3]) := by
  exact ⟨by decide, by decide⟩

/-- C4, counterexample.  On the spec's own example the claim fails: the
sink is written `x1.I1`, and a sink pin tag other than Q/QBAR records an
INVALID_PIN before the `=` is even looked at, after which the statement
is re-entered from the `I1` token; the pass therefore records an
INVALID_PIN and then the INVALID_DEVICE (the final SYNTAX_ERROR is the
end-of-conns artifact), not exactly one INVALID_DEVICE.  No connection
request is issued. -/
theorem c4_spec_example_also_records_invalid_pin :
    passErrors "[devices]\nx1 = AND(2);\n[conns]\nx1.I1 = nosuch.I1;\n" =
        .ok [.INVALID_PIN, .INVALID_DEVICE, .SYNTAX_ERROR] ∧
      passConns "[devices]\nx1 = AND(2);\n[conns]\nx1.I1 = nosuch.I1;\n" = .ok [] := by
  exact ⟨by decide, by decide⟩

/-- C4, amended.  For a connection statement whose source device is
undeclared and whose sink carries no pin tag — `x1 = nosuch.I1;` — the
statement records exactly one INVALID_DEVICE diagnostic (the trailing
SYNTAX_ERROR is recorded by the statement loop at end of input, after
the statement), no connection request is issued, and the pass
terminates. -/
theorem c4_undeclared_source_one_invalid_device :
    passErrors "[devices]\nx1 = AND(2);\n[conns]\nx1 = nosuch.I1;\n" =
        .ok [.INVALID_DEVICE, .SYNTAX_ERROR] ∧
      passConns "[devices]\nx1 = AND(2);\n[conns]\nx1 = nosuch.I1;\n" = .ok [] := by
  exact ⟨by decide, by decide⟩

/-- A bare parser state for probing the statement-level helpers. -/
def probeState : PState :=
  { scan := initScanner "", symbol := {}, errors := [], stored_device_list := [],
    registry := [], creations := [], conns := [] }

/-- C3.  The claim says an in-range `I<n>` pin selects the (n-1)-th
declared input-pin identity with no diagnostic and an out-of-range one
records INVALID_PIN.  The code has the comparison inverted: against a
device with two declared input pins, the in-range I1 records
INVALID_PIN and selects nothing, the out-of-range I5 raises an uncaught
IndexError, and only the unresolved-device branch (INVALID_DEVICE)
matches the claim. -/
theorem c3_input_pin_resolution_inverted :
    resolveInputPin "I1" (some ⟨[10, 20]⟩) probeState =
        .ok (none, addErr .INVALID_PIN probeState) ∧
      resolveInputPin "I5" (some ⟨[10, 20]⟩) probeState = .exn "IndexError" ∧
      resolveInputPin "I1" none probeState =
        .ok (none, addErr .INVALID_DEVICE probeState) := by
  exact ⟨by decide, by decide, by decide⟩

/-- C7.  The claim says a source pin is accepted iff it is CLK, DATA,
Q, QBAR or I followed by the digits of 1..16, and that an accepted Q or
QBAR source pin is translated without an uncaught exception.  The
pattern in check_inputs_name has a stray dot-star, so I17 and Ix3 are
accepted without any diagnostic; and the translation step computes
int(port_name[1:]) for any pin outside CLK/DATA/SET/CLEAR, so an
accepted Q or QBAR source pin raises an uncaught ValueError. -/
theorem c7_pin_name_check_accepts_beyond_range_and_crashes_on_q :
    check_inputs_name ({ name := "I17" } : Tok) probeState = .ok (true, probeState) ∧
      check_inputs_name ({ name := "Ix3" } : Tok) probeState = .ok (true, probeState) ∧
      check_inputs_name ({ name := "I0" } : Tok) probeState =
        .ok (false, addErr .INVALID_NAME probeState) ∧
      resolveInputPin "Q" (some ⟨[10, 20]⟩) probeState = .exn "ValueError" ∧
      resolveInputPin "QBAR" (some ⟨[10, 20]⟩) probeState = .exn "ValueError" := by
  exact ⟨by decide, by decide, by decide, by decide, by decide⟩

/-- C9.  The output-pin disambiguation of parse_conns_line: when as
many output-pin tags were collected as device names, the leading tag —
Q or QBAR on every successfully scanned statement — is consumed as the
sink's explicit flip-flop output selector, mapped to its fixed pin
identity and removed from the pin list before the source pins are
matched; with differing lengths the output pin is none and the pin
list is untouched. -/
theorem c9_output_pin_disambiguation (dl : List String) :
    (∀ p ps, (p = "Q" ∨ p = "QBAR") → (p :: ps).length = dl.length →
        selectOutputPin dl (p :: ps) =
          .ok (some (if p = "Q" then PinId.Q else PinId.QBAR), ps)) ∧
      (∀ pl, pl.length ≠ dl.length → selectOutputPin dl pl = .ok (none, pl)) := by
  constructor
  · intro p ps hp hl
    rcases hp with hp | hp <;> subst hp <;>
      simp [selectOutputPin, dtypeMapping, hl]
  · intro pl hne
    simp [selectOutputPin, hne]

/-- Witness for C9 at concrete inputs. -/
theorem c9_output_pin_disambiguation_witness :
    selectOutputPin ["d", "g"] ["Q", "I1"] = .ok (some PinId.Q, ["I1"]) ∧
      selectOutputPin ["a", "b"] ["I1"] = .ok (none, ["I1"]) := by
  constructor
  · have h := (c9_output_pin_disambiguation ["d", "g"]).1 "Q" ["I1"]
      (Or.inl rfl) (by decide)
    simpa using h
  · exact (c9_output_pin_disambiguation ["a", "b"]).2 ["I1"] (by decide)

/-- Helper: skip_spaces does nothing when the lookahead is not
whitespace. -/
theorem skipSpaces_stop (s : ScannerState) (c : Char)
    (h1 : s.current = some c) (h2 : pySpace c = false) : skipSpaces s = s := by
  unfold skipSpaces
  simp [skipSpacesF, h1, h2]

/-- A mid-scan scanner state whose lookahead is the invalid character
@, with one character of input left behind it. -/
def c5State : ScannerState :=
  { input := ['a'], current := some '@', line := 0, pos := 5, names := [], errors := [] }

/-- C5, counterexample.  The claim says the invalid character is
consumed (the position advances past it) and the next get_symbol call
examines the next character.  The invalid-character branch never calls
advance: after the call the lookahead is still the `@` at the same
position with the same unread input, and the immediately following
get_symbol call trips over the very same character and records a second
INVALID_CHARACTER. -/
theorem c5_invalid_char_not_consumed :
    getSymbol c5State =
        .ok ({ type := none, id := none, name := "", nval := none },
             { c5State with errors := [.INVALID_CHARACTER] }) ∧
      getSymbol { c5State with errors := [.INVALID_CHARACTER] } =
        .ok ({ type := none, id := none, name := "", nval := none },
             { c5State with errors := [.INVALID_CHARACTER, .INVALID_CHARACTER] }) := by
  exact ⟨by decide, by decide⟩

/-- The state change of the scanner's invalid-character branch: only
the error list grows. -/
def scErr (s : ScannerState) : ScannerState :=
  { s with errors := s.errors ++ [.INVALID_CHARACTER] }

/-- C5, amended.  For every scan step whose lookahead is not
alphabetic, not a digit, not one of the fixed single-character tokens,
not whitespace or a comment start, and not end of stream, the Scanner
records one invalid-character diagnostic and returns no usable token
(the symbol's type stays None), but it does NOT consume the character:
the lookahead, unread input, line and column are all unchanged, so the
immediately following get_symbol call examines the same character
again. -/
theorem c5_invalid_char_leaves_stream_untouched (s : ScannerState) (c : Char)
    (h1 : s.current = some c) (h2 : pySpace c = false) (h3 : c ≠ '#')
    (h4 : pyAlpha c = false) (h5 : pyDigit c = false)
    (h6 : c ≠ '=') (h7 : c ≠ '.') (h8 : c ≠ ',') (h9 : c ≠ ';')
    (h10 : c ≠ '(') (h11 : c ≠ ')') (h12 : c ≠ '[') (h13 : c ≠ ']') :
    getSymbol s = .ok ({ type := none, id := none, name := "", nval := none }, scErr s) ∧
      (scErr s).current = s.current ∧ (scErr s).input = s.input ∧
      (scErr s).pos = s.pos ∧ (scErr s).line = s.line := by
  have hskip : skipSpaces s = s := skipSpaces_stop s c h1 h2
  have hclass : classify s =
      ({ type := none, id := none, name := "", nval := none }, scErr s) := by
    simp [classify, h1, h4, h5, h6, h7, h8, h9, h10, h11, h12, h13, scErr]
  refine ⟨?_, rfl, rfl, rfl, rfl⟩
  simp [getSymbol, hskip, h1, h3, Bind.bind, Outcome.bind, hclass]

/-- Witness for C5 (amended) at a concrete invalid character. -/
theorem c5_invalid_char_leaves_stream_untouched_witness :
    getSymbol { input := ['b'], current := some '$', line := 2, pos := 7,
                names := [], errors := [] } =
      .ok ({ type := none, id := none, name := "", nval := none },
           scErr { input := ['b'], current := some '$', line := 2, pos := 7,
                   names := [], errors := [] }) := by
  exact (c5_invalid_char_leaves_stream_untouched
    { input := ['b'], current := some '$', line := 2, pos := 7, names := [], errors := [] }
    '$' rfl (by decide) (by decide) (by decide) (by decide) (by decide) (by decide)
    (by decide) (by decide) (by decide) (by decide) (by decide) (by decide)).1

/-- C6.  The claim says get_symbol terminates on every finite stream,
in particular when a `#` comment is the last line and the stream ends
without a newline.  It does not: on the two-character input `#x` the
comment-skip loop reaches end of file, where advance keeps producing
the empty read result, which is never a newline — get_symbol diverges,
and no number of loop iterations from the end-of-file state ever makes
the loop guard false. -/
theorem c6_comment_at_eof_never_terminates :
    getSymbol (initScanner "#x") = .diverge ∧
      ∀ s : ScannerState, s.input = [] → s.current = none →
        ∀ n, (advanceIter n s).current ≠ some '\n' := by
  refine ⟨by decide, ?_⟩
  intro s h1 h2 n
  induction n generalizing s with
  | zero => simp [advanceIter, h2]
  | succ n ih =>
      show (advanceIter n (advance s)).current ≠ some '\n'
      exact ih (advance s) (by simp [advance, h1]) (by simp [advance, h1])

/-- Witness for C6 at a concrete end-of-file state and iteration
count. -/
theorem c6_comment_at_eof_never_terminates_witness :
    getSymbol (initScanner "#x") = .diverge ∧
      (advanceIter 5 { input := [], current := none, line := 0, pos := 3,
                       names := [], errors := [] }).current ≠ some '\n' := by
  exact ⟨c6_comment_at_eof_never_terminates.1,
         c6_comment_at_eof_never_terminates.2 _ rfl rfl 5⟩

theorem outcome_ok_bind {α β : Type} (a : α) (f : α → Outcome β) :
    (Outcome.ok a : Outcome α) >>= f = f a := rfl

/-- Helper: the creation fold of makeGates appends one gate request per
identity, in order, and touches neither the diagnostics nor the
connection requests. -/
theorem foldl_makeGate (k : GateKind) (n : Nat) :
    ∀ (ids : List Nat) (st : PState),
      ((ids.foldl (fun st i => makeGate i k n st) st).creations =
          st.creations ++ ids.map (fun i => DevReq.gate i k n)) ∧
        ((ids.foldl (fun st i => makeGate i k n st) st).errors = st.errors)
  | [], st => by simp
  | i :: rest, st => by
      have ih := foldl_makeGate k n rest (makeGate i k n st)
      simp only [List.foldl, List.map]
      refine ⟨?_, ?_⟩
      · rw [ih.1]; simp [makeGate]
      · rw [ih.2]; simp [makeGate]

/-- Helper: Parser.advance rewritten through a known scanner answer. -/
theorem padvance_eq (st : PState) (t : Tok) (s : ScannerState)
    (h : getSymbol st.scan = .ok (t, s)) :
    padvance st = .ok { st with scan := s, symbol := t } := by
  simp [padvance, h, outcome_ok_bind]

/-- Helper: makeGates leaves the diagnostics alone and appends one
creation request per looked-up identity. -/
theorem makeGates_spec (dl : List String) (k : GateKind) (n : Nat) (st : PState) :
    (makeGates dl k n st).errors = st.errors ∧
      (makeGates dl k n st).creations =
        st.creations ++ ((namesLookup st.scan.names dl).1.map (fun i => DevReq.gate i k n)) := by
  rcases hpair : namesLookup st.scan.names dl with ⟨ids, tbl⟩
  refine ⟨?_, ?_⟩
  · simp only [makeGates, hpair]
    exact (foldl_makeGate k n ids _).2
  · simp only [makeGates, hpair]
    rw [(foldl_makeGate k n ids _).1]

/-- C10.  A syntactically well-formed `KIND ( NUMBER ) ;` tail whose
count violates the kind's range policy records INVALID_NUMBER and still
issues one creation request per declared name, carrying the
out-of-range value: the registry mutation is not suppressed.  Stated
for the shared 1..16 gate block (AND/NAND/OR/NOR) and for the XOR
block, over any scanner whose next three symbols are the NUMBER, the
closing bracket and the semicolon. -/
theorem c10_out_of_range_param_still_creates
    (st : PState) (n : Nat) (t1 t2 t3 : Tok) (s1 s2 s3 : ScannerState)
    (hOpen : st.symbol.type = some .OPEN_BRACKET)
    (hg1 : getSymbol st.scan = .ok (t1, s1)) (ht1 : t1.type = some .NUMBER)
    (hv1 : t1.nval = some n)
    (hg2 : getSymbol s1 = .ok (t2, s2)) (ht2 : t2.type = some .CLOSE_BRACKET)
    (hg3 : getSymbol s2 = .ok (t3, s3)) (ht3 : t3.type = some .SEMICOLON) :
    (∀ k dl, (n < 1 ∨ n > 16) →
        ∃ st', gateBlock16 k dl st = .ok st' ∧
          st'.errors = st.errors ++ [ErrCode.INVALID_NUMBER] ∧
          st'.creations = st.creations ++
            ((namesLookup s3.names dl).1.map (fun i => DevReq.gate i k n))) ∧
      (∀ dl, n ≠ 2 →
        ∃ st', xorBlock dl st = .ok st' ∧
          st'.errors = st.errors ++ [ErrCode.INVALID_NUMBER] ∧
          st'.creations = st.creations ++
            ((namesLookup s3.names dl).1.map (fun i => DevReq.gate i GateKind.XOR n))) := by
  have hA : padvance st = .ok { st with scan := s1, symbol := t1 } :=
    padvance_eq st t1 s1 hg1
  have hB : padvance (addErr .INVALID_NUMBER { st with scan := s1, symbol := t1 }) =
      .ok { st with scan := s2, symbol := t2,
                    errors := st.errors ++ [ErrCode.INVALID_NUMBER] } := by
    simpa [addErr] using padvance_eq
      (addErr .INVALID_NUMBER { st with scan := s1, symbol := t1 }) t2 s2 hg2
  have hC : padvance
        { st with scan := s2, symbol := t2,
                  errors := st.errors ++ [ErrCode.INVALID_NUMBER] } =
      .ok { st with scan := s3, symbol := t3,
                    errors := st.errors ++ [ErrCode.INVALID_NUMBER] } := by
    simpa using padvance_eq
      { st with scan := s2, symbol := t2,
                errors := st.errors ++ [ErrCode.INVALID_NUMBER] } t3 s3 hg3
  constructor
  · intro k dl hbad
    refine ⟨makeGates dl k n
        { st with scan := s3, symbol := t3,
                  errors := st.errors ++ [ErrCode.INVALID_NUMBER] }, ?_, ?_, ?_⟩
    · show gateBlock16 k dl st = _
      simp only [gateBlock16, hOpen, hA, outcome_ok_bind, ht1, if_true]
      simp only [numOf, hv1, Option.getD_some]
      rw [if_pos hbad]
      simp [hB, outcome_ok_bind, ht2, hC, ht3]
    · exact (makeGates_spec dl k n _).1
    · exact (makeGates_spec dl k n _).2
  · intro dl hbad
    refine ⟨makeGates dl .XOR n
        { st with scan := s3, symbol := t3,
                  errors := st.errors ++ [ErrCode.INVALID_NUMBER] }, ?_, ?_, ?_⟩
    · show xorBlock dl st = _
      simp only [xorBlock, hOpen, hA, outcome_ok_bind, ht1, if_true]
      simp only [numOf, hv1, Option.getD_some]
      rw [if_pos hbad]
      simp [hB, outcome_ok_bind, ht2, hC, ht3]
    · exact (makeGates_spec dl .XOR n _).1
    · exact (makeGates_spec dl .XOR n _).2

/-- The scanner and parser states for the C10 witness: the parser is
poised after `g1 = AND (` with `17);` still to scan. -/
def c10Scan : ScannerState :=
  { input := "7);".data, current := some '1', line := 0, pos := 1,
    names := ["g1"], errors := [] }

def c10St : PState :=
  { scan := c10Scan, symbol := { type := some .OPEN_BRACKET, name := "(" },
    errors := [], stored_device_list := [], registry := [], creations := [],
    conns := [] }

/-- Witness for C10 at the concrete out-of-range count 17. -/
theorem c10_out_of_range_param_still_creates_witness :
    ∃ st', gateBlock16 .AND ["g1"] c10St = .ok st' ∧
      st'.errors = [] ++ [ErrCode.INVALID_NUMBER] ∧
      st'.creations = [] ++
        ((namesLookup ["g1"] ["g1"]).1.map (fun i => DevReq.gate i .AND 17)) := by
  exact (c10_out_of_range_param_still_creates c10St 17
    { type := some .NUMBER, name := "17", nval := some 17 }
    { type := some .CLOSE_BRACKET, name := ")" }
    { type := some .SEMICOLON, name := ";" }
    { input := [';'], current := some ')', line := 0, pos := 3, names := ["g1"], errors := [] }
    { input := [], current := some ';', line := 0, pos := 4, names := ["g1"], errors := [] }
    { input := [], current := none, line := 0, pos := 5, names := ["g1"], errors := [] }
    rfl (by decide) rfl rfl (by decide) rfl (by decide) rfl).1 .AND ["g1"]
    (by decide)
